import Mathlib

/-!
Shallow embedding of the `latex-convert` edge function
(`src/supabase/functions/latex-convert/index.ts`): a request-forwarding
proxy that validates a LaTeX payload, optionally checks an API key,
forwards the source to an external compiler, and relays the result as
either a JSON data-URI response or a raw binary PDF response.
-/

namespace LatexConvert

/-- Values produced by `req.json()`: the JSON data model of the request body. -/
inductive JsonValue where
  | jnull
  | jbool (b : Bool)
  | jnum (n : Int)
  | jstr (s : String)
  | jarr (elems : List JsonValue)
  | jobj (fields : List (String × JsonValue))

/-- JavaScript truthiness of a JSON value (`undefined` is handled at use
sites as `Option.none`). -/
def jsTruthy : JsonValue → Bool
  | .jnull => false
  | .jbool b => b
  | .jnum n => n != 0
  | .jstr s => s != ""
  | .jarr _ => true
  | .jobj _ => true

/-- Embeds `typeof v === 'string'`. -/
def JsonValue.isString : JsonValue → Bool
  | .jstr _ => true
  | _ => false

/-- Property lookup on a parsed JSON object (parsed objects have unique keys). -/
def lookupField (fields : List (String × JsonValue)) (k : String) : Option JsonValue :=
  match fields.find? (fun p => p.1 == k) with
  | some p => some p.2
  | none => none

/-- Embeds `const { latex } = body` (destructuring the parsed body):
destructuring `null` throws a TypeError, caught by the outer handler;
any other value yields its `latex` property, `none` standing for
`undefined` (absent property, or any non-object value). -/
def destructureLatex : JsonValue → Except String (Option JsonValue)
  | .jnull => .error "Cannot destructure property of null"
  | .jobj fields => .ok (lookupField fields "latex")
  | _ => .ok none

/-- Embeds the guard `!latex || typeof latex !== 'string'` on the
destructured field (`none` = `undefined`, which is falsy). -/
def latexInvalid : Option JsonValue → Bool
  | none => true
  | some v => !jsTruthy v || !v.isString

/-- The string content of the `latex` field, meaningful once
`latexInvalid` is `false` (which forces a nonempty `jstr`). -/
def latexString : Option JsonValue → String
  | some (.jstr s) => s
  | _ => ""

/-- Incoming HTTP request as the handler observes it: the method, the
`format` query parameter, the `accept` and `x-api-key` headers
(`none` = absent), and the result of `await req.json()` (`Except.error`
carries the message of the exception a non-JSON body raises). -/
structure Request where
  method : String
  queryFormat : Option String
  acceptHeader : Option String
  apiKeyHeader : Option String
  body : Except String JsonValue

/-- Outcome of the `fetch` to the external compiler as the handler
observes it: the `ok` flag, the text body read on failure, and the byte
body read on success. -/
structure CompilerResult where
  ok : Bool
  bodyText : String
  bodyBytes : List Nat
deriving DecidableEq, Repr

/-- The outbound request the handler submits to the external compiler:
URL, method, and the multipart form fields built from the LaTeX source. -/
structure OutboundRequest where
  url : String
  method : String
  fileContents : String
  fileName : String
  engine : String
  returnType : String
  acceptHeader : String
deriving DecidableEq, Repr

/-- Body of a handler response: empty (preflight), a JSON document, or
raw PDF bytes. -/
inductive RespBody where
  | empty
  | json (v : JsonValue)
  | bytes (bs : List Nat)

/-- An HTTP response produced by the handler. -/
structure Response where
  status : Nat
  headers : List (String × String)
  body : RespBody

/-- The `corsHeaders` constant of the source. -/
def corsHeaders : List (String × String) :=
  [("Access-Control-Allow-Origin", "*"),
   ("Access-Control-Allow-Headers",
    "authorization, x-client-info, apikey, content-type, x-api-key")]

/-- Headers `... corsHeaders, 'Content-Type': 'application/json'` used by
every JSON response branch. -/
def jsonHeaders : List (String × String) :=
  corsHeaders ++ [("Content-Type", "application/json")]

/-- The base64 alphabet, in index order. -/
def base64Chars : List Char :=
  "ABCDEFGHIJKLMNOPQRSTUVWXYZabcdefghijklmnopqrstuvwxyz0123456789+/".data

/-- Character for a 6-bit group. -/
def b64char (n : Nat) : Char := base64Chars.getD n 'A'

/-- Index of a base64 character, `none` for characters outside the alphabet. -/
def b64val (c : Char) : Option Nat := base64Chars.indexOf? c

/-- Embeds `btoa(new Uint8Array(buf).reduce((d, b) => d + String.fromCharCode(b), ''))`:
base64 encoding of the PDF byte sequence (each byte below 256), three
bytes per four output characters, `=`-padded. -/
def btoaBytes : List Nat → List Char
  | [] => []
  | [b1] => [b64char (b1 / 4), b64char (b1 % 4 * 16), '=', '=']
  | [b1, b2] =>
      [b64char (b1 / 4), b64char (b1 % 4 * 16 + b2 / 16), b64char (b2 % 16 * 4), '=']
  | b1 :: b2 :: b3 :: rest =>
      b64char (b1 / 4) :: b64char (b1 % 4 * 16 + b2 / 16) ::
      b64char (b2 % 16 * 4 + b3 / 64) :: b64char (b3 % 64) :: btoaBytes rest

/-- Modelled from the spec: standard base64 decoding of the payload of a
data URI ("decoding the base64 portion of `pdfUrl`"), which the source
itself never performs. Fails on input that is not well-formed base64. -/
def base64Decode : List Char → Option (List Nat)
  | [] => some []
  | c1 :: c2 :: c3 :: c4 :: rest =>
      match b64val c1, b64val c2 with
      | some v1, some v2 =>
        if c3 = '=' then
          if c4 = '=' ∧ rest = [] then some [v1 * 4 + v2 / 16] else none
        else
          match b64val c3 with
          | some v3 =>
            if c4 = '=' then
              if rest = [] then some [v1 * 4 + v2 / 16, v2 % 16 * 16 + v3 / 4] else none
            else
              match b64val c4 with
              | some v4 =>
                match base64Decode rest with
                | some bs =>
                    some ((v1 * 4 + v2 / 16) :: (v2 % 16 * 16 + v3 / 4) ::
                          (v3 % 4 * 64 + v4) :: bs)
                | none => none
              | none => none
          | none => none
      | _, _ => none
  | _ => none

/-- Embeds `format === 'binary' || acceptHeader === 'application/pdf'`. -/
def returnBinary (req : Request) : Bool :=
  req.queryFormat == some "binary" || req.acceptHeader == some "application/pdf"

/-- Embeds `apiKey && apiKey !== expectedApiKey`: the gate fires exactly
when the header is present, nonempty (truthy), and differs from the
configured secret (`none` embeds an unset `LATEX_API_KEY`, and no string
is `===` to `undefined`). -/
def authRejects (expectedApiKey : Option String) (req : Request) : Bool :=
  match req.apiKeyHeader with
  | none => false
  | some k => k != "" && some k != expectedApiKey

/-- Response to a CORS preflight: `new Response(null, { headers: corsHeaders })`. -/
def preflightResponse : Response := ⟨200, corsHeaders, .empty⟩

/-- The 401 response for a present-but-wrong API key. -/
def unauthorizedResponse : Response :=
  ⟨401, jsonHeaders, .json (.jobj [("error", .jstr "Unauthorized: Invalid API key")])⟩

/-- The 400 response for a missing or non-string `latex` field. -/
def invalidLatexResponse : Response :=
  ⟨400, jsonHeaders, .json (.jobj [("error", .jstr "Invalid request: latex field is required")])⟩

/-- The 400 response for `latex.length > 100000`. -/
def tooLargeResponse : Response :=
  ⟨400, jsonHeaders, .json (.jobj [("error", .jstr "LaTeX document too large (max 100KB)")])⟩

/-- The 400 response relaying a compiler failure, with
`details: errorText.substring(0, 500)`. -/
def compileFailedResponse (errorText : String) : Response :=
  ⟨400, jsonHeaders,
   .json (.jobj [("error", .jstr "LaTeX compilation failed. Please check your LaTeX syntax."),
                 ("details", .jstr (errorText.take 500))])⟩

/-- The 500 response of the catch-all block, with `details: error.message`. -/
def internalErrorResponse (msg : String) : Response :=
  ⟨500, jsonHeaders,
   .json (.jobj [("error", .jstr "Internal server error"), ("details", .jstr msg)])⟩

/-- The 200 binary-format response returning the PDF bytes directly. -/
def binarySuccessResponse (bs : List Nat) : Response :=
  ⟨200, corsHeaders ++
        [("Content-Type", "application/pdf"),
         ("Content-Disposition", "attachment; filename=\"document.pdf\"")],
   .bytes bs⟩

/-- Scheme-and-mime head of the data URI built for the JSON success response. -/
def pdfDataUriStart : String := "data:application/pdf;base64,"

/-- The 200 JSON success response embedding the PDF as a base64 data URI. -/
def jsonSuccessResponse (bs : List Nat) : Response :=
  ⟨200, jsonHeaders,
   .json (.jobj [("success", .jbool true),
                 ("pdfUrl", .jstr (pdfDataUriStart ++ ⟨btoaBytes bs⟩)),
                 ("message", .jstr "PDF compiled successfully")])⟩

/-- The configured TeXLive endpoint. -/
def texliveUrl : String := "https://texlive.net/cgi-bin/latexcgi"

/-- The multipart upload built from the LaTeX source: `filecontents[]`
named `document.tex`, `filename[]`, `engine=pdflatex`, `return=pdf`,
sent via POST with `Accept: application/pdf`. -/
def outboundRequest (latex : String) : OutboundRequest :=
  ⟨texliveUrl, "POST", latex, "document.tex", "pdflatex", "pdf", "application/pdf"⟩

/-- The serve handler. Takes the configured secret (`LATEX_API_KEY`,
`none` if unset), the request, and the external compiler's behaviour on
the one outbound call the handler can make (`Except.error` embeds a
`fetch` rejection, caught by the catch-all block). Returns the response
together with the list of outbound calls actually made. -/
def handle (expectedApiKey : Option String) (req : Request)
    (compiler : Except String CompilerResult) : Response × List OutboundRequest :=
  if req.method = "OPTIONS" then
    (preflightResponse, [])
  else if authRejects expectedApiKey req then
    (unauthorizedResponse, [])
  else
    match req.body with
    | .error msg => (internalErrorResponse msg, [])
    | .ok bodyVal =>
      match destructureLatex bodyVal with
      | .error msg => (internalErrorResponse msg, [])
      | .ok latexOpt =>
        if latexInvalid latexOpt then
          (invalidLatexResponse, [])
        else if (latexString latexOpt).length > 100000 then
          (tooLargeResponse, [])
        else
          match compiler with
          | .error msg => (internalErrorResponse msg, [outboundRequest (latexString latexOpt)])
          | .ok res =>
            if !res.ok then
              (compileFailedResponse res.bodyText, [outboundRequest (latexString latexOpt)])
            else if returnBinary req then
              (binarySuccessResponse res.bodyBytes, [outboundRequest (latexString latexOpt)])
            else
              (jsonSuccessResponse res.bodyBytes, [outboundRequest (latexString latexOpt)])

/-- Modelled from the spec: the claimed format negotiation, true when
`format=binary` or the `Accept` header CONTAINS `application/pdf` as a
substring — where the source compares the whole header with `===`. -/
def wantsBinarySpec (req : Request) : Bool :=
  req.queryFormat == some "binary" ||
    (match req.acceptHeader with
     | some a => decide ("application/pdf".data <:+: a.data)
     | none => false)

/-- The `pdfUrl` field of a JSON response body, when present and a string. -/
def responsePdfUrl (r : Response) : Option String :=
  match r.body with
  | .json (.jobj fields) =>
      match lookupField fields "pdfUrl" with
      | some (.jstr s) => some s
      | _ => none
  | _ => none

/-- The raw bytes of a binary response body. -/
def responseBytes (r : Response) : Option (List Nat) :=
  match r.body with
  | .bytes bs => some bs
  | _ => none

/-- Outbound calls the handler makes, as a function of the gates alone:
none when any gate short-circuits, exactly one otherwise. -/
def expectedCalls (e : Option String) (req : Request) : List OutboundRequest :=
  if req.method = "OPTIONS" then []
  else if authRejects e req then []
  else
    match req.body with
    | .error _ => []
    | .ok bodyVal =>
      match destructureLatex bodyVal with
      | .error _ => []
      | .ok latexOpt =>
        if latexInvalid latexOpt then []
        else if (latexString latexOpt).length > 100000 then []
        else [outboundRequest (latexString latexOpt)]

/-- Sample parsed body carrying a small valid LaTeX string. -/
def sampleBody : JsonValue := .jobj [("latex", .jstr "hello")]

/-- Sample plain POST request with the sample body and no headers. -/
def sampleRequest : Request := ⟨"POST", none, none, none, .ok sampleBody⟩

/-- Sample PDF bytes: the magic `%PDF`. -/
def samplePdf : List Nat := [37, 80, 68, 70]

/-- Sample successful compiler outcome returning the sample PDF bytes. -/
def sampleCompilerOk : CompilerResult := ⟨true, "", samplePdf⟩

/-- Request presenting an x-api-key header bearing the empty string. -/
def emptyKeyRequest : Request := ⟨"POST", none, none, some "", .error "boom"⟩

/-- Request whose body is not parsable as JSON. -/
def unparsableRequest : Request :=
  ⟨"POST", none, none, none, .error "Unexpected end of JSON input"⟩

/-- Request whose Accept header contains `application/pdf` as a proper substring. -/
def acceptListRequest : Request :=
  ⟨"POST", none, some "application/pdf, text/html", none, .ok sampleBody⟩

/-- String of 100001 characters, one over the size bound. -/
def oversizedLatex : String := ⟨List.replicate 100001 'a'⟩

/-- Request carrying the oversized LaTeX string. -/
def oversizedRequest : Request :=
  ⟨"POST", none, none, none, .ok (.jobj [("latex", .jstr oversizedLatex)])⟩

/-- Request whose body parses to an object without a `latex` field. -/
def emptyObjRequest : Request := ⟨"POST", none, none, none, .ok (.jobj [])⟩

/-- Request whose `latex` field is the empty string. -/
def emptyLatexRequest : Request :=
  ⟨"POST", none, none, none, .ok (.jobj [("latex", .jstr "")])⟩

/-- The sample request asking for binary format via the query parameter. -/
def binarySampleRequest : Request := { sampleRequest with queryFormat := some "binary" }

/-- The sample request presenting a wrong API key. -/
def wrongKeyRequest : Request := { sampleRequest with apiKeyHeader := some "wrong" }

/-- The sample request presenting an arbitrary nonempty API key. -/
def anyKeyRequest : Request := { sampleRequest with apiKeyHeader := some "anykey" }

theorem b64val_b64char : ∀ v < 64, b64val (b64char v) = some v := by decide

theorem b64char_ne_pad : ∀ v < 64, b64char v ≠ '=' := by decide

theorem base64Decode_btoaBytes :
    ∀ l : List Nat, (∀ b ∈ l, b < 256) → base64Decode (btoaBytes l) = some l := by
  intro l
  induction l using btoaBytes.induct with
  | case1 =>
    intro _
    rfl
  | case2 b1 =>
    intro h
    have hb1 : b1 < 256 := h b1 (by simp)
    simp only [btoaBytes, base64Decode,
      b64val_b64char (b1 / 4) (by omega),
      b64val_b64char (b1 % 4 * 16) (by omega)]
    simp
    omega
  | case3 b1 b2 =>
    intro h
    have hb1 : b1 < 256 := h b1 (by simp)
    have hb2 : b2 < 256 := h b2 (by simp)
    simp only [btoaBytes, base64Decode,
      b64val_b64char (b1 / 4) (by omega),
      b64val_b64char (b1 % 4 * 16 + b2 / 16) (by omega),
      b64val_b64char (b2 % 16 * 4) (by omega)]
    rw [if_neg (b64char_ne_pad (b2 % 16 * 4) (by omega))]
    simp
    omega
  | case4 b1 b2 b3 rest ih =>
    intro h
    have hb1 : b1 < 256 := h b1 (by simp)
    have hb2 : b2 < 256 := h b2 (by simp)
    have hb3 : b3 < 256 := h b3 (by simp)
    have hrest : ∀ b ∈ rest, b < 256 := fun b hb => h b (by simp [hb])
    simp only [btoaBytes, base64Decode,
      b64val_b64char (b1 / 4) (by omega),
      b64val_b64char (b1 % 4 * 16 + b2 / 16) (by omega),
      b64val_b64char (b2 % 16 * 4 + b3 / 64) (by omega),
      b64val_b64char (b3 % 64) (by omega)]
    rw [if_neg (b64char_ne_pad (b2 % 16 * 4 + b3 / 64) (by omega)),
        if_neg (b64char_ne_pad (b3 % 64) (by omega)), ih hrest]
    simp
    omega

theorem handle_success (e : Option String) (req : Request) (res : CompilerResult)
    (b : JsonValue) (lopt : Option JsonValue)
    (hm : req.method ≠ "OPTIONS") (ha : authRejects e req = false)
    (hb : req.body = .ok b) (hd : destructureLatex b = .ok lopt)
    (hv : latexInvalid lopt = false) (hlen : (latexString lopt).length ≤ 100000)
    (hok : res.ok = true) :
    handle e req (.ok res) =
      ((if returnBinary req then binarySuccessResponse res.bodyBytes
        else jsonSuccessResponse res.bodyBytes), [outboundRequest (latexString lopt)]) := by
  unfold handle
  rw [if_neg hm]
  simp only [ha, hb, hd, hv, hok]
  simp [show ¬((latexString lopt).length > 100000) from by omega]
  split <;> rfl

/-- Claim C7: when authentication, validation and the size check pass and
the external compilation succeeds, the JSON-format response is a 200
whose body has `success: true`, a `pdfUrl` beginning with
`data:application/pdf;base64,` and the success message, while the
binary-format response is a 200 carrying the raw PDF bytes with
`Content-Type: application/pdf` and the attachment Content-Disposition. -/
theorem c7_success_responses (e : Option String) (req : Request) (res : CompilerResult)
    (b : JsonValue) (lopt : Option JsonValue)
    (hm : req.method ≠ "OPTIONS") (ha : authRejects e req = false)
    (hb : req.body = .ok b) (hd : destructureLatex b = .ok lopt)
    (hv : latexInvalid lopt = false) (hlen : (latexString lopt).length ≤ 100000)
    (hok : res.ok = true) :
    (returnBinary req = false →
      (handle e req (.ok res)).1 =
        ⟨200, jsonHeaders,
         .json (.jobj [("success", .jbool true),
                       ("pdfUrl", .jstr (pdfDataUriStart ++ ⟨btoaBytes res.bodyBytes⟩)),
                       ("message", .jstr "PDF compiled successfully")])⟩) ∧
    (returnBinary req = true →
      (handle e req (.ok res)).1 =
        ⟨200, corsHeaders ++
              [("Content-Type", "application/pdf"),
               ("Content-Disposition", "attachment; filename=\"document.pdf\"")],
         .bytes res.bodyBytes⟩) := by
  rw [handle_success e req res b lopt hm ha hb hd hv hlen hok]
  constructor
  · intro hf
    simp [hf, jsonSuccessResponse]
  · intro hf
    simp [hf, binarySuccessResponse]

/-- Claim C6: when the external compiler's response does not indicate
success, the handler answers 400 with the compilation-failure error and
the first 500 characters of the upstream body as details — a JSON body
whatever format was requested — and exactly one outbound call is made. -/
theorem c6_compiler_failure_relay (e : Option String) (req : Request) (res : CompilerResult)
    (b : JsonValue) (lopt : Option JsonValue)
    (hm : req.method ≠ "OPTIONS") (ha : authRejects e req = false)
    (hb : req.body = .ok b) (hd : destructureLatex b = .ok lopt)
    (hv : latexInvalid lopt = false) (hlen : (latexString lopt).length ≤ 100000)
    (hfail : res.ok = false) :
    handle e req (.ok res) =
      (⟨400, jsonHeaders,
        .json (.jobj
          [("error", .jstr "LaTeX compilation failed. Please check your LaTeX syntax."),
           ("details", .jstr (res.bodyText.take 500))])⟩,
       [outboundRequest (latexString lopt)]) := by
  unfold handle
  rw [if_neg hm]
  simp only [ha, hb, hd, hv, hfail]
  simp [show ¬((latexString lopt).length > 100000) from by omega, compileFailedResponse]

/-- Claim C4: the base64 payload after `data:application/pdf;base64,` in
the JSON success response's `pdfUrl` decodes byte-for-byte to the bytes
the binary-format response returns for the same body and the same
compiler outcome. -/
theorem c4_base64_roundtrip (e : Option String) (req1 req2 : Request)
    (res : CompilerResult) (b : JsonValue) (lopt : Option JsonValue)
    (hm1 : req1.method ≠ "OPTIONS") (hm2 : req2.method ≠ "OPTIONS")
    (ha1 : authRejects e req1 = false) (ha2 : authRejects e req2 = false)
    (hb1 : req1.body = .ok b) (hb2 : req2.body = .ok b)
    (hd : destructureLatex b = .ok lopt)
    (hv : latexInvalid lopt = false) (hlen : (latexString lopt).length ≤ 100000)
    (hf1 : returnBinary req1 = false) (hf2 : returnBinary req2 = true)
    (hok : res.ok = true) (hbytes : ∀ x ∈ res.bodyBytes, x < 256) :
    ∃ payload : String,
      responsePdfUrl (handle e req1 (.ok res)).1 = some (pdfDataUriStart ++ payload) ∧
      responseBytes (handle e req2 (.ok res)).1 = some res.bodyBytes ∧
      base64Decode payload.data = some res.bodyBytes := by
  refine ⟨⟨btoaBytes res.bodyBytes⟩, ?_, ?_, ?_⟩
  · rw [handle_success e req1 res b lopt hm1 ha1 hb1 hd hv hlen hok]
    simp [hf1, jsonSuccessResponse, responsePdfUrl, lookupField]
  · rw [handle_success e req2 res b lopt hm2 ha2 hb2 hd hv hlen hok]
    simp [hf2, binarySuccessResponse, responseBytes]
  · exact base64Decode_btoaBytes res.bodyBytes hbytes

/-- Claim C1 (amended): an x-api-key header that is present with a
NONEMPTY value differing from the configured secret yields the 401
Unauthorized response with no outbound call; a header that is absent,
empty, or equal to the secret lets processing proceed past
authentication. -/
theorem c1_auth_gate (e : Option String) (req : Request) (c : Except String CompilerResult)
    (hm : req.method ≠ "OPTIONS") :
    (∀ k, req.apiKeyHeader = some k → k ≠ "" → some k ≠ e →
      handle e req c = (unauthorizedResponse, [])) ∧
    ((req.apiKeyHeader = none ∨ req.apiKeyHeader = some "" ∨ req.apiKeyHeader = e) →
      authRejects e req = false) := by
  constructor
  · intro k hk hne hnee
    unfold handle
    rw [if_neg hm]
    have hr : authRejects e req = true := by
      simp [authRejects, hk, hne, hnee]
    simp [hr]
  · rintro (hk | hk | hk)
    · simp [authRejects, hk]
    · simp [authRejects, hk]
    · cases hh : req.apiKeyHeader with
      | none => simp [authRejects, hh]
      | some k =>
        rw [hh] at hk
        simp [authRejects, hh, ← hk]

/-- Claim C1 counterexample: a request presenting `x-api-key` with the
empty string — present, and different from the configured secret — is
not answered with 401; the empty value is falsy, so the gate does not
fire and processing proceeds (here into the 500 path of its broken
body). -/
theorem c1_empty_key_counterexample :
    emptyKeyRequest.apiKeyHeader = some "" ∧ ("" : String) ≠ "secret" ∧
    authRejects (some "secret") emptyKeyRequest = false ∧
    (handle (some "secret") emptyKeyRequest (.ok sampleCompilerOk)).1.status = 500 := by
  refine ⟨rfl, by decide, rfl, rfl⟩

/-- Claim C2: a `latex` string longer than 100000 characters draws the
400 size-limit response with no outbound call, and one of at most
100000 characters never draws it. -/
theorem c2_size_check (e : Option String) (req : Request) (c : Except String CompilerResult)
    (b : JsonValue) (lopt : Option JsonValue)
    (hm : req.method ≠ "OPTIONS") (ha : authRejects e req = false)
    (hb : req.body = .ok b) (hd : destructureLatex b = .ok lopt)
    (hv : latexInvalid lopt = false) :
    ((latexString lopt).length > 100000 → handle e req c = (tooLargeResponse, [])) ∧
    ((latexString lopt).length ≤ 100000 → (handle e req c).1 ≠ tooLargeResponse) := by
  constructor
  · intro hlen
    unfold handle
    rw [if_neg hm]
    simp only [ha, hb, hd, hv]
    simp [hlen]
  · intro hlen
    unfold handle
    rw [if_neg hm]
    simp only [ha, hb, hd, hv]
    simp [show ¬((latexString lopt).length > 100000) from by omega]
    rcases c with msg | res
    · simp [internalErrorResponse, tooLargeResponse]
    · cases hok : res.ok
      · simp [hok, compileFailedResponse, tooLargeResponse]
      · cases hf : returnBinary req
        · simp [hok, hf, jsonSuccessResponse, tooLargeResponse]
        · simp [hok, hf, binarySuccessResponse, tooLargeResponse]

/-- Claim C3 (amended): a body that fails JSON parsing, or parses to
JSON `null`, raises inside the try block and is answered 500 Internal
server error; a body parsing to any other JSON value whose `latex`
field is missing, falsy, or not a string is answered with the 400
validation error. -/
theorem c3_body_validation (e : Option String) (req : Request) (c : Except String CompilerResult)
    (hm : req.method ≠ "OPTIONS") (ha : authRejects e req = false) :
    (∀ msg, req.body = .error msg → handle e req c = (internalErrorResponse msg, [])) ∧
    (req.body = .ok .jnull →
      handle e req c = (internalErrorResponse "Cannot destructure property of null", [])) ∧
    (∀ b lopt, req.body = .ok b → destructureLatex b = .ok lopt → latexInvalid lopt = true →
      handle e req c = (invalidLatexResponse, [])) := by
  refine ⟨?_, ?_, ?_⟩
  · intro msg hbody
    unfold handle
    rw [if_neg hm]
    simp [ha, hbody]
  · intro hbody
    unfold handle
    rw [if_neg hm]
    simp [ha, hbody, destructureLatex]
  · intro b lopt hbody hd hv
    unfold handle
    rw [if_neg hm]
    simp [ha, hbody, hd, hv]

/-- Claim C3 counterexample: a request whose body is not parsable as
JSON is answered 500 (the `req.json()` exception reaches the catch-all
block), not with the 400 validation error the claim states. -/
theorem c3_unparsable_counterexample :
    (handle none unparsableRequest (.ok sampleCompilerOk)).1.status = 500 ∧
    (handle none unparsableRequest (.ok sampleCompilerOk)).1 ≠ invalidLatexResponse := by
  refine ⟨rfl, fun h => absurd (congrArg Response.status h) (by decide)⟩

/-- Claim C9: a body parsing to an object whose `latex` field is the
empty string is rejected with the 400 validation error and no outbound
call, because `!latex` uses truthiness and the empty string is falsy. -/
theorem c9_empty_latex_rejected (e : Option String) (req : Request)
    (c : Except String CompilerResult) (fields : List (String × JsonValue))
    (hm : req.method ≠ "OPTIONS") (ha : authRejects e req = false)
    (hb : req.body = .ok (.jobj fields))
    (hl : lookupField fields "latex" = some (.jstr "")) :
    handle e req c = (invalidLatexResponse, []) := by
  unfold handle
  rw [if_neg hm]
  simp [ha, hb, destructureLatex, hl, latexInvalid, jsTruthy]

/-- Claim C10: with `LATEX_API_KEY` unset, every request supplying a
nonempty `x-api-key` header is answered 401 — no string compares equal
to the absent secret — while requests omitting the header proceed past
authentication. -/
theorem c10_absent_secret (req : Request) (c : Except String CompilerResult)
    (hm : req.method ≠ "OPTIONS") :
    (∀ k, req.apiKeyHeader = some k → k ≠ "" →
      handle none req c = (unauthorizedResponse, [])) ∧
    (req.apiKeyHeader = none → authRejects none req = false) := by
  constructor
  · intro k hk hne
    unfold handle
    rw [if_neg hm]
    have hr : authRejects none req = true := by simp [authRejects, hk, hne]
    simp [hr]
  · intro hk
    simp [authRejects, hk]

theorem handle_calls (e : Option String) (req : Request) (c : Except String CompilerResult) :
    (handle e req c).2 = expectedCalls e req := by
  unfold handle expectedCalls
  repeat' split <;> try rfl

theorem handle_response_cases (e : Option String) (req : Request)
    (c : Except String CompilerResult) (hm : req.method ≠ "OPTIONS") :
    (handle e req c).1 = unauthorizedResponse ∨
    (∃ msg, (handle e req c).1 = internalErrorResponse msg) ∨
    (handle e req c).1 = invalidLatexResponse ∨
    (handle e req c).1 = tooLargeResponse ∨
    (∃ t, (handle e req c).1 = compileFailedResponse t) ∨
    (∃ bs, (handle e req c).1 = binarySuccessResponse bs) ∨
    (∃ bs, (handle e req c).1 = jsonSuccessResponse bs) := by
  unfold handle
  rw [if_neg hm]
  by_cases ha : authRejects e req = true
  · rw [if_pos ha]
    exact Or.inl rfl
  rw [if_neg ha]
  cases hbody : req.body with
  | error msg => exact Or.inr (Or.inl ⟨msg, rfl⟩)
  | ok b =>
    dsimp only
    cases hdl : destructureLatex b with
    | error msg => exact Or.inr (Or.inl ⟨msg, rfl⟩)
    | ok lopt =>
      dsimp only
      by_cases hv : latexInvalid lopt = true
      · rw [if_pos hv]
        exact Or.inr (Or.inr (Or.inl rfl))
      rw [if_neg hv]
      by_cases hlen : (latexString lopt).length > 100000
      · rw [if_pos hlen]
        exact Or.inr (Or.inr (Or.inr (Or.inl rfl)))
      rw [if_neg hlen]
      cases c with
      | error msg => exact Or.inr (Or.inl ⟨msg, rfl⟩)
      | ok res =>
        dsimp only
        by_cases hok : (!res.ok) = true
        · rw [if_pos hok]
          exact Or.inr (Or.inr (Or.inr (Or.inr (Or.inl ⟨res.bodyText, rfl⟩))))
        rw [if_neg hok]
        by_cases hrb : returnBinary req = true
        · rw [if_pos hrb]
          exact Or.inr (Or.inr (Or.inr (Or.inr (Or.inr (Or.inl ⟨res.bodyBytes, rfl⟩)))))
        · rw [if_neg hrb]
          exact Or.inr (Or.inr (Or.inr (Or.inr (Or.inr (Or.inr ⟨res.bodyBytes, rfl⟩)))))

/-- Claim C5 (amended): the binary flag is true exactly when the
`format` query parameter equals `binary` or the `Accept` header equals
`application/pdf` in full (the source compares with `===`, not
containment), and the outbound calls made are identical across any two
requests differing only in those two format inputs. -/
theorem c5_format_negotiation (e : Option String) (m : String)
    (qf ah qf2 ah2 ak : Option String) (body : Except String JsonValue)
    (c : Except String CompilerResult) :
    (returnBinary ⟨m, qf, ah, ak, body⟩ = true ↔
      (qf = some "binary" ∨ ah = some "application/pdf")) ∧
    (handle e ⟨m, qf, ah, ak, body⟩ c).2 = (handle e ⟨m, qf2, ah2, ak, body⟩ c).2 := by
  constructor
  · simp [returnBinary]
  · rw [handle_calls, handle_calls]
    rfl

/-- Claim C5 counterexample: an Accept header that CONTAINS
`application/pdf` without being equal to it (here
`application/pdf, text/html`) does not set the binary flag, so the
claimed containment-based negotiation disagrees with the code. -/
theorem c5_accept_contains_counterexample :
    wantsBinarySpec acceptListRequest = true ∧
    returnBinary acceptListRequest = false := by
  constructor
  · decide
  · rfl

/-- Claim C8: every non-preflight response carries
`Access-Control-Allow-Origin: *`, and every response with a JSON body
additionally carries `Content-Type: application/json`. -/
theorem c8_cors_invariant (e : Option String) (req : Request)
    (c : Except String CompilerResult) (hm : req.method ≠ "OPTIONS") :
    ("Access-Control-Allow-Origin", "*") ∈ (handle e req c).1.headers ∧
    (∀ v, (handle e req c).1.body = RespBody.json v →
      ("Content-Type", "application/json") ∈ (handle e req c).1.headers) := by
  rcases handle_response_cases e req c hm with
    h | ⟨msg, h⟩ | h | h | ⟨t, h⟩ | ⟨bs, h⟩ | ⟨bs, h⟩ <;>
  rw [h] <;>
  simp [unauthorizedResponse, internalErrorResponse, invalidLatexResponse,
    tooLargeResponse, compileFailedResponse, binarySuccessResponse,
    jsonSuccessResponse, jsonHeaders, corsHeaders]

theorem c1_auth_gate_witness :
    wrongKeyRequest.method ≠ "OPTIONS" ∧
    handle (some "secret") wrongKeyRequest (.ok sampleCompilerOk) =
      (unauthorizedResponse, []) ∧
    authRejects (some "secret") sampleRequest = false := by
  refine ⟨by decide, ?_, ?_⟩
  · exact (c1_auth_gate (some "secret") wrongKeyRequest (.ok sampleCompilerOk) (by decide)).1
      "wrong" rfl (by decide) (by decide)
  · exact (c1_auth_gate (some "secret") sampleRequest (.ok sampleCompilerOk) (by decide)).2
      (Or.inl rfl)

theorem c2_size_check_witness :
    oversizedLatex.length > 100000 ∧
    handle none oversizedRequest (.ok sampleCompilerOk) = (tooLargeResponse, []) := by
  have hlen : oversizedLatex.length > 100000 := by
    show (List.replicate 100001 'a').length > 100000
    rw [List.length_replicate]
    omega
  refine ⟨hlen, ?_⟩
  exact (c2_size_check none oversizedRequest (.ok sampleCompilerOk)
    (.jobj [("latex", .jstr oversizedLatex)])
    (some (.jstr oversizedLatex)) (by decide) rfl rfl rfl rfl).1 hlen

theorem c3_body_validation_witness :
    handle none unparsableRequest (.ok sampleCompilerOk) =
      (internalErrorResponse "Unexpected end of JSON input", []) ∧
    handle none emptyObjRequest (.ok sampleCompilerOk) = (invalidLatexResponse, []) := by
  constructor
  · exact (c3_body_validation none unparsableRequest (.ok sampleCompilerOk) (by decide) rfl).1
      "Unexpected end of JSON input" rfl
  · exact (c3_body_validation none emptyObjRequest (.ok sampleCompilerOk) (by decide) rfl).2.2
      (.jobj []) none rfl rfl rfl

theorem c4_base64_roundtrip_witness :
    (∀ x ∈ samplePdf, x < 256) ∧
    ∃ payload : String,
      responsePdfUrl (handle none sampleRequest (.ok sampleCompilerOk)).1 =
        some (pdfDataUriStart ++ payload) ∧
      responseBytes (handle none binarySampleRequest (.ok sampleCompilerOk)).1 =
        some samplePdf ∧
      base64Decode payload.data = some samplePdf := by
  refine ⟨by decide, ?_⟩
  exact c4_base64_roundtrip none sampleRequest binarySampleRequest sampleCompilerOk sampleBody
    (some (.jstr "hello")) (by decide) (by decide) rfl rfl rfl rfl rfl rfl
    (by decide) rfl rfl rfl (by decide)

theorem c6_compiler_failure_relay_witness :
    handle none sampleRequest (.ok ⟨false, "bad latex", []⟩) =
      (⟨400, jsonHeaders,
        .json (.jobj
          [("error", .jstr "LaTeX compilation failed. Please check your LaTeX syntax."),
           ("details", .jstr (("bad latex" : String).take 500))])⟩,
       [outboundRequest "hello"]) :=
  c6_compiler_failure_relay none sampleRequest ⟨false, "bad latex", []⟩ sampleBody
    (some (.jstr "hello")) (by decide) rfl rfl rfl rfl (by decide) rfl

theorem c7_success_responses_witness :
    (handle none sampleRequest (.ok sampleCompilerOk)).1 =
      ⟨200, jsonHeaders,
       .json (.jobj [("success", .jbool true),
                     ("pdfUrl", .jstr (pdfDataUriStart ++ ⟨btoaBytes samplePdf⟩)),
                     ("message", .jstr "PDF compiled successfully")])⟩ ∧
    (handle none binarySampleRequest (.ok sampleCompilerOk)).1 =
      ⟨200, corsHeaders ++
            [("Content-Type", "application/pdf"),
             ("Content-Disposition", "attachment; filename=\"document.pdf\"")],
       .bytes samplePdf⟩ := by
  constructor
  · exact (c7_success_responses none sampleRequest sampleCompilerOk sampleBody
      (some (.jstr "hello")) (by decide) rfl rfl rfl rfl (by decide) rfl).1 rfl
  · exact (c7_success_responses none binarySampleRequest sampleCompilerOk sampleBody
      (some (.jstr "hello")) (by decide) rfl rfl rfl rfl (by decide) rfl).2 rfl

theorem c8_cors_invariant_witness :
    ("Access-Control-Allow-Origin", "*") ∈
      (handle none sampleRequest (.ok sampleCompilerOk)).1.headers ∧
    (∀ v, (handle none sampleRequest (.ok sampleCompilerOk)).1.body = RespBody.json v →
      ("Content-Type", "application/json") ∈
        (handle none sampleRequest (.ok sampleCompilerOk)).1.headers) :=
  c8_cors_invariant none sampleRequest (.ok sampleCompilerOk) (by decide)

theorem c9_empty_latex_rejected_witness :
    handle none emptyLatexRequest (.ok sampleCompilerOk) = (invalidLatexResponse, []) :=
  c9_empty_latex_rejected none emptyLatexRequest (.ok sampleCompilerOk)
    [("latex", .jstr "")] (by decide) rfl rfl rfl

theorem c10_absent_secret_witness :
    handle none anyKeyRequest (.ok sampleCompilerOk) = (unauthorizedResponse, []) ∧
    authRejects none sampleRequest = false := by
  constructor
  · exact (c10_absent_secret anyKeyRequest (.ok sampleCompilerOk) (by decide)).1
      "anykey" rfl (by decide)
  · exact (c10_absent_secret sampleRequest (.ok sampleCompilerOk) (by decide)).2 rfl

end LatexConvert
